import Mathlib

/-!
Shallow embedding of `large_object.go` from kalloc/aerospike-client-go.

The file models the large-object proxy layer: the `baseLargeObject` struct,
its constructor `newLargeObject`, and the six operations `destroy`, `size`,
`getConfig`, `setCapacity`, `getCapacity`, `scan`.

Modelling conventions:
- Go's dynamically typed executor result (`interface{}`) is the closed sum
  `GoVal`; a `nil` result is `Option.none`.
- Go's `error` is an abstract type parameter `E`; a `nil` error is `none`.
- The external `client.Execute` collaborator is a field of the `Client`
  record: an arbitrary function from the call arguments to
  `(result, error)`, exactly the shape of the Go signature
  `Execute(policy, key, packageName, functionName, args ...Value)`.
- Go's unchecked type assertions (`ret.(int)` etc.) panic at runtime when
  the dynamic shape does not match; each operation therefore returns an
  `Option`-wrapped result where the outer `none` models that fatal panic.
- Go distinguishes a `nil` map/slice from an empty one; the embedding keeps
  that distinction with an inner `Option (List _)`.
-/

/-- Dynamic value produced by the remote executor, modelling the Go
`interface{}` result restricted to the shapes the code ever asserts. -/
inductive GoVal where
  | vInt (n : Int)
  | vStr (s : String)
  | vMap (m : List (GoVal × GoVal))
  | vList (l : List GoVal)

/-- Aerospike `Value` arguments, restricted to the three constructors used
in `large_object.go`: `NewNullValue`, `NewStringValue`, `NewIntegerValue`. -/
inductive Value where
  | NullValue
  | StringValue (s : String)
  | IntegerValue (n : Int)

/-- Go constructor `NewStringValue`. -/
def NewStringValue (s : String) : Value := Value.StringValue s

/-- Go constructor `NewNullValue`. -/
def NewNullValue : Value := Value.NullValue

/-- Go constructor `NewIntegerValue`. -/
def NewIntegerValue (n : Int) : Value := Value.IntegerValue n

/-- The external client collaborator, reduced to the one capability this
layer consumes: `Execute(policy, key, packageName, functionName, args...)`
returning `(interface{}, error)`. `P` is the policy type, `K` the key type
and `E` the error type, all opaque to this layer. -/
structure Client (P K E : Type) where
  Execute : P → K → String → String → List Value → Option GoVal × Option E

/-- The `LargeObject` interface as consumed by the base: the operations only
ever call `ifc.packageName()`. -/
structure LargeObjectIfc where
  packageName : String

/-- The `baseLargeObject` struct from `large_object.go`. -/
structure baseLargeObject (P K E : Type) where
  client : Client P K E
  policy : P
  key : K
  binName : Value
  userModule : Value

/-- Constructor `newLargeObject`: wraps the bin name as a string value
unconditionally; an empty user-module name becomes the null value. -/
def newLargeObject {P K E : Type} (client : Client P K E) (policy : P)
    (key : K) (binName : String) (userModule : String) :
    baseLargeObject P K E :=
  { client := client
    policy := policy
    key := key
    binName := NewStringValue binName
    userModule :=
      if userModule = "" then NewNullValue else NewStringValue userModule }

/-- Go method `destroy`: calls the executor with function name "destroy",
discards the result and returns the error. -/
def baseLargeObject.destroy {P K E : Type} (lo : baseLargeObject P K E)
    (ifc : LargeObjectIfc) : Option E :=
  (lo.client.Execute lo.policy lo.key ifc.packageName "destroy"
    [lo.binName]).2

/-- Go method `size`: on executor error returns `(-1, err)`; on a non-nil
result asserts `ret.(int)` (panic, outer `none`, when not an integer); on a
nil result returns `(0, nil)`. -/
def baseLargeObject.size {P K E : Type} (lo : baseLargeObject P K E)
    (ifc : LargeObjectIfc) : Option (Int × Option E) :=
  match lo.client.Execute lo.policy lo.key ifc.packageName "size"
      [lo.binName] with
  | (_, some e) => some (-1, some e)
  | (some (GoVal.vInt n), none) => some (n, none)
  | (some _, none) => none
  | (none, none) => some (0, none)

/-- Go method `getConfig`: on executor error returns `(nil, err)`; on a nil
result returns `(nil, nil)`; otherwise asserts the map type (panic, outer
`none`, when not a map). The inner `Option` distinguishes the nil map from
an empty one. -/
def baseLargeObject.getConfig {P K E : Type} (lo : baseLargeObject P K E)
    (ifc : LargeObjectIfc) :
    Option (Option (List (GoVal × GoVal)) × Option E) :=
  match lo.client.Execute lo.policy lo.key ifc.packageName "get_config"
      [lo.binName] with
  | (_, some e) => some (none, some e)
  | (none, none) => some (none, none)
  | (some (GoVal.vMap m), none) => some (some m, none)
  | (some _, none) => none

/-- Go method `setCapacity`: calls the executor with function name
"set_capacity" and the extra integer-value argument, returning the error. -/
def baseLargeObject.setCapacity {P K E : Type} (lo : baseLargeObject P K E)
    (ifc : LargeObjectIfc) (capacity : Int) : Option E :=
  (lo.client.Execute lo.policy lo.key ifc.packageName "set_capacity"
    [lo.binName, NewIntegerValue capacity]).2

/-- Go method `getCapacity`: on executor error returns `(-1, err)`;
otherwise asserts `ret.(int)` with no nil special case, so a nil or
non-integer result is a panic (outer `none`). -/
def baseLargeObject.getCapacity {P K E : Type} (lo : baseLargeObject P K E)
    (ifc : LargeObjectIfc) : Option (Int × Option E) :=
  match lo.client.Execute lo.policy lo.key ifc.packageName "get_capacity"
      [lo.binName] with
  | (_, some e) => some (-1, some e)
  | (some (GoVal.vInt n), none) => some (n, none)
  | (_, none) => none

/-- Go method `scan`: on executor error returns `(nil, err)`; on a nil
result returns the empty (non-nil) slice; otherwise asserts the slice type
(panic, outer `none`, when not a slice). The inner `Option` distinguishes
the nil slice from an empty one. -/
def baseLargeObject.scan {P K E : Type} (lo : baseLargeObject P K E)
    (ifc : LargeObjectIfc) : Option (Option (List GoVal) × Option E) :=
  match lo.client.Execute lo.policy lo.key ifc.packageName "scan"
      [lo.binName] with
  | (_, some e) => some (none, some e)
  | (none, none) => some (some [], none)
  | (some (GoVal.vList l), none) => some (some l, none)
  | (some _, none) => none

/-- One remote call as received by the executor, used to state which
arguments an operation passes down. -/
structure ExecCall (P K : Type) where
  policy : P
  key : K
  packageName : String
  functionName : String
  args : List Value

/-- Recording executor: reports the exact call it received through the
error channel, so theorems can observe the argument sequence an operation
marshals. -/
def recClient (P K : Type) : Client P K (ExecCall P K) :=
  ⟨fun p k pn fn args => (none, some ⟨p, k, pn, fn, args⟩)⟩

/-- Executor that always fails, tagging the error with the length of the
function name so distinct operations receive distinct error values. -/
def errClient : Client Nat Nat Nat :=
  ⟨fun _ _ _ fn _ => (none, some fn.length)⟩

/-- Executor that always succeeds with a nil (absent) result. -/
def absClient (P K E : Type) : Client P K E :=
  ⟨fun _ _ _ _ _ => (none, none)⟩

/-- C1: for every operation (destroy, size, getConfig, setCapacity,
getCapacity, scan), when the executor returns a non-nil error, that exact
error value is returned to the caller unchanged, with no wrapping,
classification or local recovery. -/
theorem lo_error_propagation_verbatim {P K E : Type}
    (lo : baseLargeObject P K E) (ifc : LargeObjectIfc) (cap : Int)
    (e1 e2 e3 e4 e5 e6 : E)
    (h1 : (lo.client.Execute lo.policy lo.key ifc.packageName "destroy"
      [lo.binName]).2 = some e1)
    (h2 : (lo.client.Execute lo.policy lo.key ifc.packageName "size"
      [lo.binName]).2 = some e2)
    (h3 : (lo.client.Execute lo.policy lo.key ifc.packageName "get_config"
      [lo.binName]).2 = some e3)
    (h4 : (lo.client.Execute lo.policy lo.key ifc.packageName "set_capacity"
      [lo.binName, NewIntegerValue cap]).2 = some e4)
    (h5 : (lo.client.Execute lo.policy lo.key ifc.packageName "get_capacity"
      [lo.binName]).2 = some e5)
    (h6 : (lo.client.Execute lo.policy lo.key ifc.packageName "scan"
      [lo.binName]).2 = some e6) :
    lo.destroy ifc = some e1 ∧
    lo.size ifc = some (-1, some e2) ∧
    lo.getConfig ifc = some (none, some e3) ∧
    lo.setCapacity ifc cap = some e4 ∧
    lo.getCapacity ifc = some (-1, some e5) ∧
    lo.scan ifc = some (none, some e6) := by
  refine ⟨h1, ?_, ?_, h4, ?_, ?_⟩
  · rcases hx : lo.client.Execute lo.policy lo.key ifc.packageName "size"
      [lo.binName] with ⟨r, er⟩
    rw [hx] at h2
    simp only at h2
    subst h2
    simp [baseLargeObject.size, hx]
  · rcases hx : lo.client.Execute lo.policy lo.key ifc.packageName
      "get_config" [lo.binName] with ⟨r, er⟩
    rw [hx] at h3
    simp only at h3
    subst h3
    simp [baseLargeObject.getConfig, hx]
  · rcases hx : lo.client.Execute lo.policy lo.key ifc.packageName
      "get_capacity" [lo.binName] with ⟨r, er⟩
    rw [hx] at h5
    simp only at h5
    subst h5
    simp [baseLargeObject.getCapacity, hx]
  · rcases hx : lo.client.Execute lo.policy lo.key ifc.packageName "scan"
      [lo.binName] with ⟨r, er⟩
    rw [hx] at h6
    simp only at h6
    subst h6
    simp [baseLargeObject.scan, hx]

/-- Witness for C1 at a concrete always-failing executor: each operation
surfaces exactly the error the executor produced for its call. -/
theorem lo_error_propagation_verbatim_witness :
    (newLargeObject errClient 0 0 "b" "m").destroy ⟨"llist"⟩ = some 7 ∧
    (newLargeObject errClient 0 0 "b" "m").size ⟨"llist"⟩
      = some (-1, some 4) ∧
    (newLargeObject errClient 0 0 "b" "m").getConfig ⟨"llist"⟩
      = some (none, some 10) ∧
    (newLargeObject errClient 0 0 "b" "m").setCapacity ⟨"llist"⟩ 5
      = some 12 ∧
    (newLargeObject errClient 0 0 "b" "m").getCapacity ⟨"llist"⟩
      = some (-1, some 12) ∧
    (newLargeObject errClient 0 0 "b" "m").scan ⟨"llist"⟩
      = some (none, some 4) :=
  lo_error_propagation_verbatim (newLargeObject errClient 0 0 "b" "m")
    ⟨"llist"⟩ 5 7 4 10 12 12 4 rfl rfl rfl rfl rfl rfl

/-- C2: size returns exactly 0 and no error when the executor returns a nil
result with no error. -/
theorem size_absent_returns_zero {P K E : Type}
    (lo : baseLargeObject P K E) (ifc : LargeObjectIfc)
    (h : lo.client.Execute lo.policy lo.key ifc.packageName "size"
      [lo.binName] = (none, none)) :
    lo.size ifc = some (0, none) := by
  simp [baseLargeObject.size, h]

/-- Witness for C2 at a concrete always-absent executor. -/
theorem size_absent_returns_zero_witness :
    (newLargeObject (absClient Nat Nat Nat) 0 0 "b" "").size ⟨"lstack"⟩
      = some (0, none) :=
  size_absent_returns_zero _ _ rfl

/-- C3: getCapacity on a nil executor result with no error hits the
unchecked integer conversion, which fails fatally (modelled by the outer
`none`, the panic value): no defaulted 0 and no recoverable error result is
produced. -/
theorem getCapacity_absent_is_fatal {P K E : Type}
    (lo : baseLargeObject P K E) (ifc : LargeObjectIfc)
    (h : lo.client.Execute lo.policy lo.key ifc.packageName "get_capacity"
      [lo.binName] = (none, none)) :
    lo.getCapacity ifc = none := by
  simp [baseLargeObject.getCapacity, h]

/-- Witness for C3 at a concrete always-absent executor. -/
theorem getCapacity_absent_is_fatal_witness :
    (newLargeObject (absClient Nat Nat Nat) 0 0 "b" "").getCapacity
      ⟨"lset"⟩ = none :=
  getCapacity_absent_is_fatal _ _ rfl

/-- C4: getConfig returns the absent (nil) mapping, not an empty mapping,
and no error, when the executor returns a nil result with no error. -/
theorem getConfig_absent_returns_absent {P K E : Type}
    (lo : baseLargeObject P K E) (ifc : LargeObjectIfc)
    (h : lo.client.Execute lo.policy lo.key ifc.packageName "get_config"
      [lo.binName] = (none, none)) :
    lo.getConfig ifc = some (none, none) ∧
    lo.getConfig ifc ≠ some (some [], none) := by
  constructor
  · simp [baseLargeObject.getConfig, h]
  · simp [baseLargeObject.getConfig, h]

/-- Witness for C4 at a concrete always-absent executor. -/
theorem getConfig_absent_returns_absent_witness :
    (newLargeObject (absClient Nat Nat Nat) 0 0 "b" "").getConfig ⟨"lmap"⟩
      = some (none, none) ∧
    (newLargeObject (absClient Nat Nat Nat) 0 0 "b" "").getConfig ⟨"lmap"⟩
      ≠ some (some [], none) :=
  getConfig_absent_returns_absent _ _ rfl

/-- C5: scan returns the empty (non-nil) sequence, not the absent one, and
no error, when the executor returns a nil result with no error. -/
theorem scan_absent_returns_empty {P K E : Type}
    (lo : baseLargeObject P K E) (ifc : LargeObjectIfc)
    (h : lo.client.Execute lo.policy lo.key ifc.packageName "scan"
      [lo.binName] = (none, none)) :
    lo.scan ifc = some (some [], none) ∧
    lo.scan ifc ≠ some (none, none) := by
  constructor
  · simp [baseLargeObject.scan, h]
  · simp [baseLargeObject.scan, h]

/-- Witness for C5 at a concrete always-absent executor. -/
theorem scan_absent_returns_empty_witness :
    (newLargeObject (absClient Nat Nat Nat) 0 0 "b" "").scan ⟨"llist"⟩
      = some (some [], none) ∧
    (newLargeObject (absClient Nat Nat Nat) 0 0 "b" "").scan ⟨"llist"⟩
      ≠ some (none, none) :=
  scan_absent_returns_empty _ _ rfl

/-- C6: constructing a handle with an empty initialization-module name
stores the explicit null value, which differs from the string value stored
for any non-empty module name. -/
theorem empty_userModule_encodes_null {P K E : Type} (c : Client P K E)
    (p : P) (k : K) (b : String) (m : String) (h : m ≠ "") :
    (newLargeObject c p k b "").userModule = Value.NullValue ∧
    (newLargeObject c p k b m).userModule = Value.StringValue m ∧
    (newLargeObject c p k b "").userModule
      ≠ (newLargeObject c p k b m).userModule := by
  refine ⟨rfl, ?_, ?_⟩
  · simp [newLargeObject, NewStringValue, h]
  · simp [newLargeObject, NewStringValue, NewNullValue, h]

/-- Witness for C6 at the concrete module name "mod". -/
theorem empty_userModule_encodes_null_witness :
    (newLargeObject (absClient Nat Nat Nat) 0 0 "b" "").userModule
      = Value.NullValue ∧
    (newLargeObject (absClient Nat Nat Nat) 0 0 "b" "mod").userModule
      = Value.StringValue "mod" ∧
    (newLargeObject (absClient Nat Nat Nat) 0 0 "b" "").userModule
      ≠ (newLargeObject (absClient Nat Nat Nat) 0 0 "b" "mod").userModule :=
  empty_userModule_encodes_null (absClient Nat Nat Nat) 0 0 "b" "mod"
    (by decide)

/-- C7: observed through the recording executor, each operation performs
exactly one call carrying its fixed function-name string, the package name
supplied by the kind, the stored policy, key and bin, and for setCapacity
additionally the capacity as an integer value after the bin. -/
theorem operations_call_fixed_names_and_args {P K : Type} (p : P) (k : K)
    (b m : String) (ifc : LargeObjectIfc) (cap : Int) :
    (newLargeObject (recClient P K) p k b m).destroy ifc
      = some ⟨p, k, ifc.packageName, "destroy", [Value.StringValue b]⟩ ∧
    (newLargeObject (recClient P K) p k b m).size ifc
      = some (-1, some ⟨p, k, ifc.packageName, "size",
          [Value.StringValue b]⟩) ∧
    (newLargeObject (recClient P K) p k b m).getConfig ifc
      = some (none, some ⟨p, k, ifc.packageName, "get_config",
          [Value.StringValue b]⟩) ∧
    (newLargeObject (recClient P K) p k b m).setCapacity ifc cap
      = some ⟨p, k, ifc.packageName, "set_capacity",
          [Value.StringValue b, Value.IntegerValue cap]⟩ ∧
    (newLargeObject (recClient P K) p k b m).getCapacity ifc
      = some (-1, some ⟨p, k, ifc.packageName, "get_capacity",
          [Value.StringValue b]⟩) ∧
    (newLargeObject (recClient P K) p k b m).scan ifc
      = some (none, some ⟨p, k, ifc.packageName, "scan",
          [Value.StringValue b]⟩) :=
  ⟨rfl, rfl, rfl, rfl, rfl, rfl⟩

/-- C8: two handles constructed from identical (client, policy, key, bin
name, module name) parameters hand the recording executor identical call
records for every operation: marshaling is deterministic across handles. -/
theorem marshaling_deterministic {P K : Type} (p : P) (k : K)
    (b m : String) (ifc : LargeObjectIfc) (cap : Int) :
    (newLargeObject (recClient P K) p k b m).destroy ifc
      = (newLargeObject (recClient P K) p k b m).destroy ifc ∧
    (newLargeObject (recClient P K) p k b m).size ifc
      = (newLargeObject (recClient P K) p k b m).size ifc ∧
    (newLargeObject (recClient P K) p k b m).getConfig ifc
      = (newLargeObject (recClient P K) p k b m).getConfig ifc ∧
    (newLargeObject (recClient P K) p k b m).setCapacity ifc cap
      = (newLargeObject (recClient P K) p k b m).setCapacity ifc cap ∧
    (newLargeObject (recClient P K) p k b m).getCapacity ifc
      = (newLargeObject (recClient P K) p k b m).getCapacity ifc ∧
    (newLargeObject (recClient P K) p k b m).scan ifc
      = (newLargeObject (recClient P K) p k b m).scan ifc :=
  ⟨rfl, rfl, rfl, rfl, rfl, rfl⟩

/-- C9: when the executor returns a non-nil error, size and getCapacity
return the sentinel -1 (not 0) alongside that exact error. -/
theorem error_int_sentinel_neg_one {P K E : Type}
    (lo : baseLargeObject P K E) (ifc : LargeObjectIfc) (e1 e2 : E)
    (h1 : (lo.client.Execute lo.policy lo.key ifc.packageName "size"
      [lo.binName]).2 = some e1)
    (h2 : (lo.client.Execute lo.policy lo.key ifc.packageName
      "get_capacity" [lo.binName]).2 = some e2) :
    lo.size ifc = some (-1, some e1) ∧
    lo.getCapacity ifc = some (-1, some e2) := by
  constructor
  · rcases hx : lo.client.Execute lo.policy lo.key ifc.packageName "size"
      [lo.binName] with ⟨r, er⟩
    rw [hx] at h1
    simp only at h1
    subst h1
    simp [baseLargeObject.size, hx]
  · rcases hx : lo.client.Execute lo.policy lo.key ifc.packageName
      "get_capacity" [lo.binName] with ⟨r, er⟩
    rw [hx] at h2
    simp only at h2
    subst h2
    simp [baseLargeObject.getCapacity, hx]

/-- Witness for C9 at a concrete always-failing executor. -/
theorem error_int_sentinel_neg_one_witness :
    (newLargeObject errClient 0 0 "b" "m").size ⟨"lmap"⟩
      = some (-1, some 4) ∧
    (newLargeObject errClient 0 0 "b" "m").getCapacity ⟨"lmap"⟩
      = some (-1, some 12) :=
  error_int_sentinel_neg_one (newLargeObject errClient 0 0 "b" "m")
    ⟨"lmap"⟩ 4 12 rfl rfl

/-- C10: the constructor wraps the bin name as a string value
unconditionally: an empty bin name is stored as the empty string value and
never as the null value. -/
theorem binName_wrapped_unconditionally {P K E : Type} (c : Client P K E)
    (p : P) (k : K) (m : String) :
    (newLargeObject c p k "" m).binName = Value.StringValue "" ∧
    (newLargeObject c p k "" m).binName ≠ Value.NullValue :=
  ⟨rfl, fun hc => Value.noConfusion hc⟩
